import Mathlib

/-!
# esp-idf-simple-wifi: a shallow embedding of `wifi_simple.c`

The C file keeps four file-scope variables (the session state) and calls into
the vendor SDK.  The embedding below makes both explicit:

* `State` holds the four variables;
* every SDK call, log line, `printf`, heap operation and user-callback call is
  appended to a trace of `Effect`s, in program order;
* the values the SDK hands back (error codes, handles, scan results, whether
  `malloc` succeeds) are read from an `Sdk` record, one field per call site;
* `ESP_ERROR_CHECK` on a non-`ESP_OK` code ends the run with `Res.abort`;
  dereferencing a null pointer or reading past an array ends it with
  `Res.fault`.

Pointers are natural numbers with `NULL = 0`.  A C string is the list of its
bytes before the terminating NUL, and a null `char *` is `none`.
-/

namespace WifiSimple

/-! ## SDK types and constants used by the source -/

/-- A pointer value; `0` is the null pointer. -/
abbrev Ptr := Nat

/-- The null pointer. -/
def NULL : Ptr := 0

/-- Bytes of a C string before its terminating NUL. -/
abbrev CString := List Nat

/-- C `strlen`. -/
def strlen (s : CString) : Nat := s.length

/-- C `strncpy` into a zero-initialised destination of `n` bytes: at most `n`
bytes of the source are copied and the rest of the destination is NUL. -/
def strncpy (n : Nat) (src : CString) : List Nat :=
  src.take n ++ List.replicate (n - src.length) 0

abbrev esp_err_t := Int

def ESP_OK : esp_err_t := 0
def ESP_ERR_NVS_NO_FREE_PAGES : esp_err_t := 0x110d
def ESP_ERR_NVS_NEW_VERSION_FOUND : esp_err_t := 0x1110

/-- SDK enum `wifi_mode_t` (also quoted in a comment of `wifi_simple.h`); a C
enum parameter can carry any integer, so the type is `Int`. -/
abbrev wifi_mode_t := Int

def WIFI_MODE_NULL : wifi_mode_t := 0
def WIFI_MODE_STA : wifi_mode_t := 1
def WIFI_MODE_AP : wifi_mode_t := 2
def WIFI_MODE_APSTA : wifi_mode_t := 3

/-- SDK enum `wifi_auth_mode_t`. -/
abbrev wifi_auth_mode_t := Int

def WIFI_AUTH_OPEN : wifi_auth_mode_t := 0
def WIFI_AUTH_WEP : wifi_auth_mode_t := 1
def WIFI_AUTH_WPA_PSK : wifi_auth_mode_t := 2
def WIFI_AUTH_WPA2_PSK : wifi_auth_mode_t := 3
def WIFI_AUTH_WPA_WPA2_PSK : wifi_auth_mode_t := 4
def WIFI_AUTH_WPA2_ENTERPRISE : wifi_auth_mode_t := 5
def WIFI_AUTH_WPA3_PSK : wifi_auth_mode_t := 6
def WIFI_AUTH_WPA2_WPA3_PSK : wifi_auth_mode_t := 7

/-- SDK type `esp_event_base_t`: the two event families the source compares
against, and any other base. -/
inductive esp_event_base_t where
  | WIFI_EVENT
  | IP_EVENT
  | OTHER (tag : Nat)
  deriving DecidableEq

open esp_event_base_t

/-- Event identifiers are `int32_t`; the named ones are the SDK's enumerators
(`wifi_event_t`, `ip_event_t`), pairwise distinct inside one `switch`. -/
abbrev event_id_t := Int

def ESP_EVENT_ANY_ID : event_id_t := -1
def WIFI_EVENT_SCAN_DONE : event_id_t := 1
def WIFI_EVENT_STA_START : event_id_t := 2
def WIFI_EVENT_STA_CONNECTED : event_id_t := 4
def WIFI_EVENT_STA_DISCONNECTED : event_id_t := 5
def WIFI_EVENT_AP_START : event_id_t := 12
def WIFI_EVENT_AP_STOP : event_id_t := 13
def IP_EVENT_STA_GOT_IP : event_id_t := 0

/-- SDK enum `wifi_interface_t`, as far as the source names it. -/
inductive wifi_interface_t where
  | ESP_IF_WIFI_STA
  | ESP_IF_WIFI_AP
  deriving DecidableEq

/-- Enum `wifi_scan_event_t` of `wifi_simple.h`. -/
inductive wifi_scan_event_t where
  | WIFI_SCAN_DONE
  | WIFI_SCAN_ERROR
  deriving DecidableEq

open wifi_scan_event_t

/-- Function pointer `wifi_scan_cb_t`; `0` is the null callback. -/
abbrev wifi_scan_cb_t := Ptr

/-- The fields of the SDK's `wifi_ap_record_t` that the source reads: `ssid`
is the text of the `uint8_t[33]` field before its NUL, `rssi` an `int8_t`,
`primary` a `uint8_t`. -/
structure wifi_ap_record_t where
  ssid : List Char
  rssi : Int
  primary : Nat
  authmode : wifi_auth_mode_t
  deriving DecidableEq

/-- The fields of `wifi_config_t.sta` that the source sets; every other field
is zero. `ssid` is the 32-byte field, `password` the 64-byte field. -/
structure wifi_sta_config_t where
  ssid : List Nat
  password : List Nat
  threshold_authmode : wifi_auth_mode_t
  deriving DecidableEq

/-- The fields of `wifi_config_t.ap` that the source sets; every other field
is zero. `ssid_len`, `channel` and `max_connection` are `uint8_t`. -/
structure wifi_ap_config_t where
  ssid : List Nat
  password : List Nat
  ssid_len : Nat
  channel : Nat
  authmode : wifi_auth_mode_t
  max_connection : Nat
  deriving DecidableEq

/-- The SDK union `wifi_config_t`. -/
inductive wifi_config_t where
  | sta (c : wifi_sta_config_t)
  | ap (c : wifi_ap_config_t)
  deriving DecidableEq

/-- The SDK's `wifi_scan_config_t`, with the four fields the source sets. -/
structure wifi_scan_config_t where
  ssid : Ptr
  bssid : Ptr
  channel : Nat
  show_hidden : Bool
  deriving DecidableEq

/-- The two static handlers of `wifi_simple.c` that get registered. -/
inductive Handler where
  | wifi_event_handler
  | wifi_scan_event_handler
  deriving DecidableEq

/-- Log macros used by the source. -/
inductive LogLevel where
  | ESP_LOGE
  | ESP_LOGI
  deriving DecidableEq

/-! ## Effects -/

/-- Everything the code does to the outside world, one constructor per
callee.  Log lines carry the format string of the source. -/
inductive Effect where
  | nvs_flash_init
  | nvs_flash_erase
  | esp_netif_init
  | esp_event_loop_create_default
  | esp_netif_create_default_wifi_sta
  | esp_netif_create_default_wifi_ap
  | esp_wifi_init
  | esp_event_handler_instance_register (base : esp_event_base_t) (id : event_id_t)
      (handler : Handler)
  | esp_wifi_set_mode (mode : wifi_mode_t)
  | esp_wifi_set_config (ifx : wifi_interface_t) (conf : wifi_config_t)
  | esp_wifi_start
  | esp_wifi_scan_start (conf : wifi_scan_config_t) (block : Bool)
  | esp_wifi_connect
  | esp_wifi_disconnect
  | esp_wifi_scan_get_ap_num
  | esp_wifi_scan_get_ap_records (number : Nat)
  | malloc (records : Nat)
  | free
  | log (level : LogLevel) (fmt : String)
  | printf (text : List Char)
  | callback (cb : wifi_scan_cb_t) (event : wifi_scan_event_t)
      (aps : Option (List wifi_ap_record_t)) (count : Nat)

/-- Calls into the vendor SDK (storage, network interface, event bus, radio). -/
def Effect.isSdkCall : Effect → Bool
  | .log _ _ => false
  | .printf _ => false
  | .callback _ _ _ _ => false
  | .malloc _ => false
  | .free => false
  | _ => true

/-! ## Session state and the execution monad -/

/-- The four file-scope variables of `wifi_simple.c`. -/
structure State where
  user_scan_cb : wifi_scan_cb_t
  connected : Bool
  sta_netif : Ptr
  ap_netif : Ptr
  deriving DecidableEq

/-- The static initialisers of the four variables. -/
def State.initial : State :=
  { user_scan_cb := NULL, connected := false, sta_netif := NULL, ap_netif := NULL }

/-- Values handed back by the SDK and the allocator, one field per call site
of the source. -/
structure Sdk where
  nvs_flash_init : esp_err_t
  nvs_flash_erase : esp_err_t
  nvs_flash_init_retry : esp_err_t
  esp_netif_init : esp_err_t
  esp_event_loop_create_default : esp_err_t
  esp_netif_create_default_wifi_sta : Ptr
  esp_netif_create_default_wifi_ap : Ptr
  esp_wifi_init : esp_err_t
  register_wifi_event : esp_err_t
  register_ip_event : esp_err_t
  register_scan_done : esp_err_t
  esp_wifi_set_mode : esp_err_t
  esp_wifi_set_config_sta : esp_err_t
  esp_wifi_set_config_ap : esp_err_t
  esp_wifi_start : esp_err_t
  esp_wifi_scan_start : esp_err_t
  esp_wifi_connect : esp_err_t
  esp_wifi_disconnect : esp_err_t
  scan_ap_num : Nat
  malloc_ok : Bool
  scan_get_ap_records : esp_err_t
  scan_records_number : Nat
  scan_records : List wifi_ap_record_t

/-- Session state together with the effects performed so far. -/
structure World where
  st : State
  trace : List Effect

/-- How a run ends: normally with a value, by `abort()` from
`ESP_ERROR_CHECK`, or in undefined behaviour. -/
inductive Res (α : Type) where
  | ok (a : α) (w : World)
  | abort (w : World)
  | fault (w : World)

/-- The world at the end of a run. -/
def Res.world {α : Type} : Res α → World
  | .ok _ w => w
  | .abort w => w
  | .fault w => w

/-- Computations over the world. -/
def M (α : Type) : Type := World → Res α

/-- Sequencing: a run that aborted or faulted stops. -/
def M.bind {α β : Type} (m : M α) (f : α → M β) : M β := fun w =>
  match m w with
  | .ok a w' => f a w'
  | .abort w' => .abort w'
  | .fault w' => .fault w'

/-- Return a value without touching the world. -/
def M.pure {α : Type} (a : α) : M α := fun w => .ok a w

instance : Monad M where
  pure := M.pure
  bind := M.bind

/-- Record one effect. -/
def emit (e : Effect) : M Unit := fun w => .ok () { w with trace := w.trace ++ [e] }

/-- Read the session state. -/
def getState : M State := fun w => .ok w.st w

/-- Update the session state. -/
def modifyState (f : State → State) : M Unit := fun w => .ok () { w with st := f w.st }

/-- The process is terminated by `abort()`. -/
def abort {α : Type} : M α := fun w => .abort w

/-- Undefined behaviour. -/
def fault {α : Type} : M α := fun w => .fault w

/-- Macro `ESP_ERROR_CHECK`: any code other than `ESP_OK` aborts. -/
def ESP_ERROR_CHECK (err : esp_err_t) : M Unit :=
  if err = ESP_OK then pure () else abort

/-- A log line. -/
def logMsg (level : LogLevel) (fmt : String) : M Unit := emit (.log level fmt)

/-! ## `wifi_simple.c` -/

/-- Function `wifi_is_connected`. -/
def wifi_is_connected : M Bool := do
  let s ← getState
  pure s.connected

/-- Function `wifi_event_handler`.  `event_data` is `none` for a null pointer
and otherwise the address carried by `ip_event_got_ip_t`, which the IP branch
reads for its log line. -/
def wifi_event_handler (sdk : Sdk) (event_base : esp_event_base_t) (event_id : event_id_t)
    (event_data : Option Nat) : M Unit :=
  if event_base = WIFI_EVENT then
    if event_id = WIFI_EVENT_STA_START then
      logMsg .ESP_LOGI "STA started"
    else if event_id = WIFI_EVENT_STA_CONNECTED then
      logMsg .ESP_LOGI "Connected to AP"
    else if event_id = WIFI_EVENT_STA_DISCONNECTED then do
      logMsg .ESP_LOGI "Disconnected from AP"
      modifyState fun s => { s with connected := false }
      emit .esp_wifi_connect
      let _ := sdk.esp_wifi_connect
      pure ()
    else if event_id = WIFI_EVENT_AP_START then
      logMsg .ESP_LOGI "AP started"
    else if event_id = WIFI_EVENT_AP_STOP then
      logMsg .ESP_LOGI "AP stopped"
    else
      pure ()
  else if event_base = IP_EVENT ∧ event_id = IP_EVENT_STA_GOT_IP then
    match event_data with
    | none => fault
    | some _ => do
      logMsg .ESP_LOGI "Got IP: %d.%d.%d.%d"
      modifyState fun s => { s with connected := true }
  else
    pure ()

/-- Function `auth_mode_str`. -/
def auth_mode_str (authmode : wifi_auth_mode_t) : String :=
  if authmode = WIFI_AUTH_OPEN then "OPEN"
  else if authmode = WIFI_AUTH_WEP then "WEP"
  else if authmode = WIFI_AUTH_WPA_PSK then "WPA"
  else if authmode = WIFI_AUTH_WPA2_PSK then "WPA2"
  else if authmode = WIFI_AUTH_WPA_WPA2_PSK then "WPA/WPA2"
  else if authmode = WIFI_AUTH_WPA2_ENTERPRISE then "WPA2-ENTERPRISE"
  else if authmode = WIFI_AUTH_WPA3_PSK then "WPA3"
  else if authmode = WIFI_AUTH_WPA2_WPA3_PSK then "WPA2/WPA3"
  else "UNKNOWN"

/-- Function `wifi_init_simple`.  `ssid` and `password` are `none` for a null
pointer; reading a null `password` is undefined behaviour. -/
def wifi_init_simple (sdk : Sdk) (mode : wifi_mode_t) (ssid password : Option CString) :
    M Unit := do
  -- Validate input parameters
  let some ssid := ssid
    | logMsg .ESP_LOGE "SSID cannot be empty"
  if strlen ssid = 0 then
    logMsg .ESP_LOGE "SSID cannot be empty"
    return
  -- Initialize NVS
  emit .nvs_flash_init
  let mut ret := sdk.nvs_flash_init
  if ret = ESP_ERR_NVS_NO_FREE_PAGES ∨ ret = ESP_ERR_NVS_NEW_VERSION_FOUND then
    emit .nvs_flash_erase
    ESP_ERROR_CHECK sdk.nvs_flash_erase
    emit .nvs_flash_init
    ret := sdk.nvs_flash_init_retry
  ESP_ERROR_CHECK ret
  emit .esp_netif_init
  ESP_ERROR_CHECK sdk.esp_netif_init
  emit .esp_event_loop_create_default
  ESP_ERROR_CHECK sdk.esp_event_loop_create_default
  -- Create network interfaces based on mode
  if mode = WIFI_MODE_STA ∨ mode = WIFI_MODE_APSTA then
    emit .esp_netif_create_default_wifi_sta
    modifyState fun s => { s with sta_netif := sdk.esp_netif_create_default_wifi_sta }
    if sdk.esp_netif_create_default_wifi_sta = NULL then
      logMsg .ESP_LOGE "Failed to create STA interface"
      return
  if mode = WIFI_MODE_AP ∨ mode = WIFI_MODE_APSTA then
    emit .esp_netif_create_default_wifi_ap
    modifyState fun s => { s with ap_netif := sdk.esp_netif_create_default_wifi_ap }
    if sdk.esp_netif_create_default_wifi_ap = NULL then
      logMsg .ESP_LOGE "Failed to create AP interface"
      return
  -- Initialize WiFi with default config
  emit .esp_wifi_init
  ESP_ERROR_CHECK sdk.esp_wifi_init
  -- Register event handlers
  emit (.esp_event_handler_instance_register WIFI_EVENT ESP_EVENT_ANY_ID .wifi_event_handler)
  ESP_ERROR_CHECK sdk.register_wifi_event
  emit (.esp_event_handler_instance_register IP_EVENT IP_EVENT_STA_GOT_IP .wifi_event_handler)
  ESP_ERROR_CHECK sdk.register_ip_event
  emit (.esp_event_handler_instance_register WIFI_EVENT WIFI_EVENT_SCAN_DONE
    .wifi_scan_event_handler)
  ESP_ERROR_CHECK sdk.register_scan_done
  -- Set WiFi mode before configuration
  emit (.esp_wifi_set_mode mode)
  ESP_ERROR_CHECK sdk.esp_wifi_set_mode
  -- Configure WiFi based on mode
  if mode = WIFI_MODE_STA ∨ mode = WIFI_MODE_APSTA then
    let some pw := password
      | fault
    let wifi_config : wifi_sta_config_t :=
      { ssid := strncpy 32 ssid
        password := strncpy 64 pw
        threshold_authmode := WIFI_AUTH_WPA2_PSK }
    emit (.esp_wifi_set_config .ESP_IF_WIFI_STA (.sta wifi_config))
    ESP_ERROR_CHECK sdk.esp_wifi_set_config_sta
  if mode = WIFI_MODE_AP ∨ mode = WIFI_MODE_APSTA then
    let some pw := password
      | fault
    let wifi_config : wifi_ap_config_t :=
      { ssid_len := strlen ssid % 2 ^ 8
        channel := 1
        max_connection := 4
        authmode := if strlen pw ≠ 0 then WIFI_AUTH_WPA2_PSK else WIFI_AUTH_OPEN
        ssid := strncpy 32 ssid
        password := strncpy 64 pw }
    emit (.esp_wifi_set_config .ESP_IF_WIFI_AP (.ap wifi_config))
    ESP_ERROR_CHECK sdk.esp_wifi_set_config_ap
  -- Start WiFi
  emit .esp_wifi_start
  ESP_ERROR_CHECK sdk.esp_wifi_start
  logMsg .ESP_LOGI "WiFi initialized in mode %d"

/-- Function `wifi_start_scan`.  The log line stands for
`ESP_LOGE(TAG, "Scan failed: %s", esp_err_to_name(err))`. -/
def wifi_start_scan (sdk : Sdk) (scan_cb : wifi_scan_cb_t) : M Unit := do
  modifyState fun s => { s with user_scan_cb := scan_cb }
  let scan_config : wifi_scan_config_t :=
    { ssid := NULL, bssid := NULL, channel := 0, show_hidden := true }
  emit (.esp_wifi_scan_start scan_config true)
  let err := sdk.esp_wifi_scan_start
  if err ≠ ESP_OK then
    logMsg .ESP_LOGE "Scan failed: %s"
    let s ← getState
    if s.user_scan_cb ≠ NULL then
      emit (.callback s.user_scan_cb WIFI_SCAN_ERROR none 0)

/-- Conversion `%d` of C `printf`. -/
def fmt_d (i : Int) : List Char :=
  if i < 0 then '-' :: Nat.toDigits 10 i.natAbs else Nat.toDigits 10 i.toNat

/-- Minimum field width of C `printf` without a flag: the text is padded with
spaces on the left up to `width` characters and never shortened. -/
def padLeft (width : Nat) (text : List Char) : List Char :=
  List.replicate (width - text.length) ' ' ++ text

/-- One table row, `printf("%32s | %4d | %7d | %s\n", ...)`. -/
def format_row (ap : wifi_ap_record_t) : List Char :=
  padLeft 32 ap.ssid ++ " | ".toList ++ padLeft 4 (fmt_d ap.rssi) ++ " | ".toList ++
    padLeft 7 (fmt_d ap.primary) ++ " | ".toList ++ (auth_mode_str ap.authmode).toList ++
    "\n".toList

/-- The `printf` of the table header in `wifi_print_scan_results`. -/
def table_header : List Char :=
  "               SSID              | RSSI | Channel | Auth Mode \n".toList

/-- The `printf` of the dashed rule under the header. -/
def table_rule : List Char :=
  "--------------------------------|------|---------|----------\n".toList

/-- The `printf` of the double rule above the header and under the last row:
50 `=` characters and a newline (written here as two halves of 25). -/
def table_frame : List Char :=
  "=========================".toList ++ "=========================\n".toList

/-- The `for` loop of `wifi_print_scan_results`, from index `i`, with
`todo = count - i` iterations left.  Reading past the array is a fault. -/
def print_rows (aps : List wifi_ap_record_t) : Nat → Nat → M Unit
  | _, 0 => pure ()
  | i, todo + 1 =>
    match aps.get? i with
    | none => fault
    | some ap => do
      emit (.printf (format_row ap))
      print_rows aps (i + 1) todo

/-- Function `wifi_print_scan_results`; `aps` is `none` for a null pointer and
`count` is a `uint16_t`. -/
def wifi_print_scan_results (aps : Option (List wifi_ap_record_t)) (count : Nat) : M Unit := do
  let some aps := aps
    | emit (.printf "No networks found\n".toList)
  if count = 0 then
    emit (.printf "No networks found\n".toList)
    return
  emit (.printf ("\nFound ".toList ++ fmt_d count ++ " networks:\n".toList))
  emit (.printf table_frame)
  emit (.printf table_header)
  emit (.printf table_rule)
  print_rows aps 0 count
  emit (.printf table_frame)

/-- Function `wifi_connect`. -/
def wifi_connect (sdk : Sdk) : M Unit := do
  let s ← getState
  if s.sta_netif = NULL then
    logMsg .ESP_LOGE "Not in STA mode - cannot connect"
    return
  emit .esp_wifi_connect
  ESP_ERROR_CHECK sdk.esp_wifi_connect

/-- Function `wifi_disconnect`. -/
def wifi_disconnect (sdk : Sdk) : M Unit := do
  let s ← getState
  if s.sta_netif = NULL then
    logMsg .ESP_LOGE "Not in STA mode - cannot disconnect"
    return
  emit .esp_wifi_disconnect
  ESP_ERROR_CHECK sdk.esp_wifi_disconnect
  modifyState fun s => { s with connected := false }

/-- Function `wifi_scan_event_handler`.  `sdk.scan_ap_num` is the `uint16_t`
left in `ap_count` by `esp_wifi_scan_get_ap_num` (whose return code the source
ignores); `esp_wifi_scan_get_ap_records` fills the buffer with
`sdk.scan_records` and writes `sdk.scan_records_number` back to `ap_count`. -/
def wifi_scan_event_handler (sdk : Sdk) (event_base : esp_event_base_t)
    (event_id : event_id_t) : M Unit := do
  if event_base = WIFI_EVENT ∧ event_id = WIFI_EVENT_SCAN_DONE then
    let mut ap_count := 0
    emit .esp_wifi_scan_get_ap_num
    ap_count := sdk.scan_ap_num
    let mut ap_records : Option (List wifi_ap_record_t) := none
    if ap_count > 0 then
      emit (.malloc ap_count)
      if sdk.malloc_ok then
        emit (.esp_wifi_scan_get_ap_records ap_count)
        ap_records := some sdk.scan_records
        ap_count := sdk.scan_records_number
        ESP_ERROR_CHECK sdk.scan_get_ap_records
      else
        logMsg .ESP_LOGE "Failed to allocate memory for AP records"
    let s ← getState
    if s.user_scan_cb ≠ NULL then
      emit (.callback s.user_scan_cb
        (if ap_records.isSome then WIFI_SCAN_DONE else WIFI_SCAN_ERROR)
        ap_records (if ap_records.isSome then ap_count else 0))
    if ap_records.isSome then
      emit .free

/-! ## `example/main.c` -/

/-- Function `my_scan_callback` of `example/main.c`. -/
def my_scan_callback (event : wifi_scan_event_t) (aps : Option (List wifi_ap_record_t))
    (count : Nat) : M Unit := do
  if event = WIFI_SCAN_DONE then
    emit (.printf ("\nScan completed. Found ".toList ++ fmt_d count ++ " networks:\n".toList))
    wifi_print_scan_results aps count
  else
    emit (.printf "Scan failed!\n".toList)

/-! ## Vocabulary of the properties -/

/-- Offsets, counted from `pos`, of the `|` characters of a line. -/
def bar_offsets_from : Nat → List Char → List Nat
  | _, [] => []
  | pos, c :: cs =>
    if c = '|' then pos :: bar_offsets_from (pos + 1) cs else bar_offsets_from (pos + 1) cs

/-- Offsets of the `|` characters of a printed line. -/
def bar_offsets (line : List Char) : List Nat := bar_offsets_from 0 line

/-- Number of bytes a fixed-size character field holds before its first NUL
(the whole field when it has none). -/
def field_strlen (field : List Nat) : Nat := (field.takeWhile fun b => b ≠ 0).length

/-- Access-point configurations handed to `esp_wifi_set_config` in a trace. -/
def ap_configs : List Effect → List wifi_ap_config_t
  | [] => []
  | .esp_wifi_set_config .ESP_IF_WIFI_AP (.ap c) :: es => c :: ap_configs es
  | _ :: es => ap_configs es

/-- Texts printed in a trace, in order. -/
def printed : List Effect → List (List Char)
  | [] => []
  | .printf text :: es => text :: printed es
  | _ :: es => printed es

/-- One step of the session's life: a call of a public function or an event
delivered to one of the two registered handlers, with the SDK as it answers
during that step. -/
inductive Op where
  | init (sdk : Sdk) (mode : wifi_mode_t) (ssid password : Option CString)
  | start_scan (sdk : Sdk) (scan_cb : wifi_scan_cb_t)
  | connect (sdk : Sdk)
  | disconnect (sdk : Sdk)
  | event (sdk : Sdk) (event_base : esp_event_base_t) (event_id : event_id_t)
      (event_data : Option Nat)
  | scan_event (sdk : Sdk) (event_base : esp_event_base_t) (event_id : event_id_t)

/-- Run one step. -/
def Op.run : Op → M Unit
  | .init sdk mode ssid password => wifi_init_simple sdk mode ssid password
  | .start_scan sdk scan_cb => wifi_start_scan sdk scan_cb
  | .connect sdk => wifi_connect sdk
  | .disconnect sdk => wifi_disconnect sdk
  | .event sdk event_base event_id event_data =>
    wifi_event_handler sdk event_base event_id event_data
  | .scan_event sdk event_base event_id => wifi_scan_event_handler sdk event_base event_id

/-- Run steps one after the other; an abort or fault ends the session. -/
def run_ops : List Op → M Unit
  | [] => pure ()
  | op :: ops => do
    op.run
    run_ops ops

/-- The step is an initialize call that creates the station interface: the
ssid is non-empty, the mode includes station and the SDK returns a handle. -/
def Op.createsSta : Op → Prop
  | .init sdk mode ssid _ =>
    (mode = WIFI_MODE_STA ∨ mode = WIFI_MODE_APSTA) ∧ (∃ s, ssid = some s ∧ s ≠ []) ∧
      sdk.esp_netif_create_default_wifi_sta ≠ NULL
  | _ => False

/-- The step is a call of `wifi_init_simple`. -/
def Op.isInit : Op → Bool
  | .init _ _ _ _ => true
  | _ => false

/-- The station handle a step that returns leaves behind, given the handle
`h` before it: an initialize call with a non-empty ssid and a mode that
includes station assigns what `esp_netif_create_default_wifi_sta` returned,
every other step keeps `h`. -/
def Op.sta_after (h : Ptr) : Op → Ptr
  | .init sdk mode (some (_ :: _)) _ =>
    if mode = WIFI_MODE_STA ∨ mode = WIFI_MODE_APSTA then
      sdk.esp_netif_create_default_wifi_sta
    else h
  | _ => h

/-- An SDK in which every call succeeds: all codes are `ESP_OK`, both
interfaces are created, `malloc` succeeds and the scan finds nothing. -/
def sdk_all_ok : Sdk :=
  { nvs_flash_init := ESP_OK
    nvs_flash_erase := ESP_OK
    nvs_flash_init_retry := ESP_OK
    esp_netif_init := ESP_OK
    esp_event_loop_create_default := ESP_OK
    esp_netif_create_default_wifi_sta := 1
    esp_netif_create_default_wifi_ap := 2
    esp_wifi_init := ESP_OK
    register_wifi_event := ESP_OK
    register_ip_event := ESP_OK
    register_scan_done := ESP_OK
    esp_wifi_set_mode := ESP_OK
    esp_wifi_set_config_sta := ESP_OK
    esp_wifi_set_config_ap := ESP_OK
    esp_wifi_start := ESP_OK
    esp_wifi_scan_start := ESP_OK
    esp_wifi_connect := ESP_OK
    esp_wifi_disconnect := ESP_OK
    scan_ap_num := 0
    malloc_ok := true
    scan_get_ap_records := ESP_OK
    scan_records_number := 0
    scan_records := [] }

/-- A relation between the world before and after a run that holds across
every effect and composes along sequencing. -/
structure Frame (R : World → World → Prop) : Prop where
  refl : ∀ w, R w w
  trans : ∀ a b c, R a b → R b c → R a c
  emit : ∀ w e, R w { w with trace := w.trace ++ [e] }

/-- Every run of `m`, however it ends, relates its final world to its first. -/
def Pres {α : Type} (R : World → World → Prop) (m : M α) : Prop :=
  ∀ w, R w (m w).world

/-- Every run of `m` that returns leaves the station handle equal to `h`. -/
def SetsSta {α : Type} (h : Ptr) (m : M α) : Prop :=
  ∀ w a w1, m w = .ok a w1 → w1.st.sta_netif = h

/-- The station handle is the same in both worlds. -/
def SameSta (w w1 : World) : Prop := w1.st.sta_netif = w.st.sta_netif

/-- The connected flag is the same in both worlds. -/
def SameConnected (w w1 : World) : Prop := w1.st.connected = w.st.connected

/-- The station handle is unchanged, or it was assigned `h` while `c` holds. -/
def StaStep (c : Prop) (h : Ptr) (w w1 : World) : Prop :=
  w1.st.sta_netif = w.st.sta_netif ∨ (c ∧ w1.st.sta_netif = h)

/-- Every effect that a run of `m` appends to the trace satisfies `E`. -/
def Emits {α : Type} (E : Effect → Prop) (m : M α) : Prop :=
  ∀ w, ∃ es, (m w).world.trace = w.trace ++ es ∧ ∀ e ∈ es, E e

/-- The effect is not an access-point `esp_wifi_set_config`, or its
configuration satisfies `P`. -/
@[reducible] def ApConfigIs (P : wifi_ap_config_t → Prop) (e : Effect) : Prop :=
  ∀ c, e = .esp_wifi_set_config .ESP_IF_WIFI_AP (.ap c) → P c

/-! ## Reasoning rules for the execution monad -/

section rules
variable {R : World → World → Prop} {α β : Type}

theorem pres_pure (hR : Frame R) (a : α) : Pres R (pure a : M α) := fun w => hR.refl w

theorem pres_bind (hR : Frame R) {m : M α} {f : α → M β} (hm : Pres R m)
    (hf : ∀ a, Pres R (f a)) : Pres R (m >>= f) := by
  intro w
  have h1 := hm w
  show R w (M.bind m f w).world
  unfold M.bind
  cases h : m w with
  | ok a w1 =>
    rw [h] at h1
    exact hR.trans _ _ _ h1 (hf a w1)
  | abort w1 => rw [h] at h1; exact h1
  | fault w1 => rw [h] at h1; exact h1

theorem pres_ite (c : Prop) [Decidable c] {a b : M α} (ha : Pres R a) (hb : Pres R b) :
    Pres R (if c then a else b) := by
  split_ifs
  · exact ha
  · exact hb

theorem pres_emit (hR : Frame R) (e : Effect) : Pres R (emit e) := fun w => hR.emit w e

theorem pres_logMsg (hR : Frame R) (l : LogLevel) (s : String) : Pres R (logMsg l s) :=
  fun w => hR.emit w _

theorem pres_abort (hR : Frame R) : Pres R (abort : M α) := fun w => hR.refl w

theorem pres_fault (hR : Frame R) : Pres R (fault : M α) := fun w => hR.refl w

theorem pres_check (hR : Frame R) (e : esp_err_t) : Pres R (ESP_ERROR_CHECK e) := by
  unfold ESP_ERROR_CHECK
  exact pres_ite _ (pres_pure hR _) (pres_abort hR)

theorem pres_modifyState (f : State → State) (hf : ∀ w, R w { w with st := f w.st }) :
    Pres R (modifyState f) := fun w => hf w

theorem bind_eq_ok {m : M α} {f : α → M β} {w w2 : World} {b : β}
    (h : (m >>= f) w = .ok b w2) : ∃ a w1, m w = .ok a w1 ∧ f a w1 = .ok b w2 := by
  change M.bind m f w = .ok b w2 at h
  unfold M.bind at h
  cases hm : m w with
  | ok a w1 => rw [hm] at h; exact ⟨a, w1, rfl, h⟩
  | abort w1 => rw [hm] at h; cases h
  | fault w1 => rw [hm] at h; cases h

theorem sets_sta_bind_left {h : Ptr} {m : M α} {f : α → M β} (hm : SetsSta h m)
    (hf : ∀ a, Pres SameSta (f a)) : SetsSta h (m >>= f) := by
  intro w b w2 hb
  obtain ⟨a, w1, h1, h2⟩ := bind_eq_ok hb
  have h3 := hf a w1
  rw [h2] at h3
  exact h3.trans (hm w a w1 h1)

theorem sets_sta_bind_right {h : Ptr} {m : M α} {f : α → M β} (hf : ∀ a, SetsSta h (f a)) :
    SetsSta h (m >>= f) := by
  intro w b w2 hb
  obtain ⟨a, w1, _, h2⟩ := bind_eq_ok hb
  exact hf a w1 b w2 h2

theorem sets_sta_ite {h : Ptr} (c : Prop) [Decidable c] {a b : M α} (ha : SetsSta h a)
    (hb : SetsSta h b) : SetsSta h (if c then a else b) := by
  split_ifs
  · exact ha
  · exact hb

theorem sets_sta_modifyState (h : Ptr) :
    SetsSta h (modifyState fun s => { s with sta_netif := h }) := by
  intro w a w1 hw
  simp only [WifiSimple.modifyState, Res.ok.injEq] at hw
  rw [← hw.2]

end rules

theorem frame_SameSta : Frame SameSta :=
  ⟨fun _ => rfl, fun _ _ _ h1 h2 => Eq.trans h2 h1, fun _ _ => rfl⟩

theorem frame_SameConnected : Frame SameConnected :=
  ⟨fun _ => rfl, fun _ _ _ h1 h2 => Eq.trans h2 h1, fun _ _ => rfl⟩

theorem frame_StaStep (c : Prop) (h : Ptr) : Frame (StaStep c h) := by
  refine ⟨fun _ => Or.inl rfl, ?_, fun _ _ => Or.inl rfl⟩
  intro a b d h1 h2
  rcases h2 with h2 | h2
  · rcases h1 with h1 | h1
    · exact Or.inl (h2.trans h1)
    · exact Or.inr ⟨h1.1, h2.trans h1.2⟩
  · exact Or.inr h2

/-! ## Frame rules for the functions of `wifi_simple.c` -/

theorem wifi_init_simple_pres {R : World → World → Prop} (hR : Frame R) (sdk : Sdk)
    (mode : wifi_mode_t) (ssid password : Option CString)
    (hsta : ∀ w s, ssid = some s → s ≠ [] → (mode = WIFI_MODE_STA ∨ mode = WIFI_MODE_APSTA) →
      R w { w with st := { w.st with sta_netif := sdk.esp_netif_create_default_wifi_sta } })
    (hap : ∀ w s, ssid = some s → s ≠ [] → (mode = WIFI_MODE_AP ∨ mode = WIFI_MODE_APSTA) →
      R w { w with st := { w.st with ap_netif := sdk.esp_netif_create_default_wifi_ap } }) :
    Pres R (wifi_init_simple sdk mode ssid password) := by
  cases ssid with
  | none => exact pres_logMsg hR _ _
  | some ssid =>
    by_cases hs : strlen ssid = 0
    · simp only [wifi_init_simple, hs, if_true]
      exact pres_bind hR (pres_logMsg hR _ _) (fun _ => pres_pure hR _)
    · have hne : ssid ≠ [] := by
        intro h; apply hs; simp [h, strlen]
      by_cases hm1 : (mode = WIFI_MODE_STA ∨ mode = WIFI_MODE_APSTA) <;>
      by_cases hm2 : (mode = WIFI_MODE_AP ∨ mode = WIFI_MODE_APSTA) <;>
      cases password <;>
      simp only [wifi_init_simple, hs, hm1, hm2, if_true, if_false] <;>
      repeat' with_reducible first
        | exact pres_logMsg hR _ _
        | exact pres_emit hR _
        | exact pres_check hR _
        | exact pres_pure hR _
        | exact pres_fault hR
        | exact pres_modifyState _ (fun w => hsta w ssid rfl hne hm1)
        | exact pres_modifyState _ (fun w => hap w ssid rfl hne hm2)
        | apply pres_bind hR
        | apply pres_ite
        | intro _

theorem wifi_init_simple_sets_sta (sdk : Sdk) (mode : wifi_mode_t) (ssid : CString)
    (password : Option CString) (hs : ssid ≠ [])
    (hm : mode = WIFI_MODE_STA ∨ mode = WIFI_MODE_APSTA) :
    SetsSta sdk.esp_netif_create_default_wifi_sta
      (wifi_init_simple sdk mode (some ssid) password) := by
  have hs0 : ¬ strlen ssid = 0 := by
    intro h; apply hs; exact List.length_eq_zero.mp h
  have hap : ∀ w : World,
      SameSta w { w with st := { w.st with ap_netif := sdk.esp_netif_create_default_wifi_ap } } :=
    fun _ => rfl
  by_cases hm2 : (mode = WIFI_MODE_AP ∨ mode = WIFI_MODE_APSTA) <;>
  cases password <;>
  simp only [wifi_init_simple, hs0, hm, hm2, if_true, if_false] <;>
  repeat' with_reducible first
    | exact pres_logMsg frame_SameSta _ _
    | exact pres_emit frame_SameSta _
    | exact pres_check frame_SameSta _
    | exact pres_pure frame_SameSta _
    | exact pres_fault frame_SameSta
    | exact pres_modifyState _ hap
    | apply pres_bind frame_SameSta
    | apply pres_ite
    | refine sets_sta_bind_left (sets_sta_modifyState _) ?_
    | apply sets_sta_bind_right
    | apply sets_sta_ite
    | intro _

theorem pres_getState {R : World → World → Prop} (hR : Frame R) : Pres R getState :=
  fun w => hR.refl w

theorem wifi_start_scan_pres {R : World → World → Prop} (hR : Frame R) (sdk : Sdk)
    (scan_cb : wifi_scan_cb_t)
    (hcb : ∀ w, R w { w with st := { w.st with user_scan_cb := scan_cb } }) :
    Pres R (wifi_start_scan sdk scan_cb) := by
  simp only [wifi_start_scan]
  repeat' with_reducible first
    | exact pres_logMsg hR _ _
    | exact pres_emit hR _
    | exact pres_pure hR _
    | exact pres_getState hR
    | exact pres_modifyState _ hcb
    | apply pres_bind hR
    | apply pres_ite
    | intro _

theorem wifi_connect_pres {R : World → World → Prop} (hR : Frame R) (sdk : Sdk) :
    Pres R (wifi_connect sdk) := by
  simp only [wifi_connect]
  repeat' with_reducible first
    | exact pres_logMsg hR _ _
    | exact pres_emit hR _
    | exact pres_check hR _
    | exact pres_pure hR _
    | exact pres_getState hR
    | apply pres_bind hR
    | apply pres_ite
    | intro _

theorem wifi_disconnect_pres {R : World → World → Prop} (hR : Frame R) (sdk : Sdk)
    (hflag : ∀ w, R w { w with st := { w.st with connected := false } }) :
    Pres R (wifi_disconnect sdk) := by
  simp only [wifi_disconnect]
  repeat' with_reducible first
    | exact pres_logMsg hR _ _
    | exact pres_emit hR _
    | exact pres_check hR _
    | exact pres_pure hR _
    | exact pres_getState hR
    | exact pres_modifyState _ hflag
    | apply pres_bind hR
    | apply pres_ite
    | intro _

theorem wifi_event_handler_pres {R : World → World → Prop} (hR : Frame R) (sdk : Sdk)
    (event_base : esp_event_base_t) (event_id : event_id_t) (event_data : Option Nat)
    (hflag : ∀ w b, R w { w with st := { w.st with connected := b } }) :
    Pres R (wifi_event_handler sdk event_base event_id event_data) := by
  cases event_data <;>
  simp only [wifi_event_handler] <;>
  repeat' with_reducible first
    | exact pres_logMsg hR _ _
    | exact pres_emit hR _
    | exact pres_pure hR _
    | exact pres_fault hR
    | exact pres_modifyState _ (fun w => hflag w _)
    | apply pres_bind hR
    | apply pres_ite
    | intro _

theorem wifi_scan_event_handler_pres {R : World → World → Prop} (hR : Frame R) (sdk : Sdk)
    (event_base : esp_event_base_t) (event_id : event_id_t) :
    Pres R (wifi_scan_event_handler sdk event_base event_id) := by
  simp only [wifi_scan_event_handler]
  repeat' with_reducible first
    | exact pres_logMsg hR _ _
    | exact pres_emit hR _
    | exact pres_check hR _
    | exact pres_pure hR _
    | exact pres_getState hR
    | apply pres_bind hR
    | apply pres_ite
    | intro _

theorem print_rows_pres {R : World → World → Prop} (hR : Frame R)
    (aps : List wifi_ap_record_t) (todo : Nat) : ∀ i, Pres R (print_rows aps i todo) := by
  induction todo with
  | zero => intro i; exact pres_pure hR _
  | succ n ih =>
    intro i
    unfold print_rows
    cases aps.get? i with
    | none => exact pres_fault hR
    | some ap => exact pres_bind hR (pres_emit hR _) (fun _ => ih (i + 1))

theorem wifi_print_scan_results_pres {R : World → World → Prop} (hR : Frame R)
    (aps : Option (List wifi_ap_record_t)) (count : Nat) :
    Pres R (wifi_print_scan_results aps count) := by
  cases aps <;>
  simp only [wifi_print_scan_results] <;>
  repeat' with_reducible first
    | exact pres_emit hR _
    | exact pres_pure hR _
    | exact print_rows_pres hR _ _ _
    | apply pres_bind hR
    | apply pres_ite
    | intro _

/-- A step leaves the station handle alone unless it is an initialize call
that creates the station interface. -/
theorem op_run_sta (op : Op) (w : World) (h : (op.run w).world.st.sta_netif ≠ NULL) :
    (op.run w).world.st.sta_netif = w.st.sta_netif ∨ op.createsSta := by
  cases op with
  | init sdk mode ssid password =>
    have hp := wifi_init_simple_pres
      (frame_StaStep ((mode = WIFI_MODE_STA ∨ mode = WIFI_MODE_APSTA) ∧ ∃ s, ssid = some s ∧ s ≠ [])
        sdk.esp_netif_create_default_wifi_sta) sdk mode ssid password
      (fun w s h1 h2 h3 => Or.inr ⟨⟨h3, s, h1, h2⟩, rfl⟩)
      (fun w s _ _ _ => Or.inl rfl) w
    rcases hp with hp | ⟨⟨hm, hs⟩, hp⟩
    · exact Or.inl hp
    · refine Or.inr ⟨hm, hs, ?_⟩
      intro hn
      apply h
      show (wifi_init_simple sdk mode ssid password w).world.st.sta_netif = NULL
      rw [hp, hn]
  | start_scan sdk cb => exact Or.inl (wifi_start_scan_pres frame_SameSta sdk cb (fun _ => rfl) w)
  | connect sdk => exact Or.inl (wifi_connect_pres frame_SameSta sdk w)
  | disconnect sdk => exact Or.inl (wifi_disconnect_pres frame_SameSta sdk (fun _ => rfl) w)
  | event sdk b i d =>
    exact Or.inl (wifi_event_handler_pres frame_SameSta sdk b i d (fun _ _ => rfl) w)
  | scan_event sdk b i => exact Or.inl (wifi_scan_event_handler_pres frame_SameSta sdk b i w)


theorem run_ops_sta (ops : List Op) : ∀ (w w1 : World), run_ops ops w = .ok () w1 →
    w1.st.sta_netif ≠ NULL → w.st.sta_netif ≠ NULL ∨ ∃ op ∈ ops, op.createsSta := by
  induction ops with
  | nil =>
    intro w w1 h hn
    simp only [run_ops, pure, M.pure, Res.ok.injEq, true_and] at h
    subst h
    exact Or.inl hn
  | cons op ops ih =>
    intro w w1 h hn
    simp only [run_ops] at h
    obtain ⟨_, w2, h1, h2⟩ := bind_eq_ok h
    rcases ih w2 w1 h2 hn with h3 | ⟨op2, hmem, hc⟩
    · have h4 : (op.run w).world = w2 := by rw [h1]; rfl
      have h5 := op_run_sta op w (by rw [h4]; exact h3)
      rw [h4] at h5
      rcases h5 with h5 | h5
      · exact Or.inl (by rw [← h5]; exact h3)
      · exact Or.inr ⟨op, List.mem_cons_self _ _, h5⟩
    · exact Or.inr ⟨op2, List.mem_cons_of_mem _ hmem, hc⟩

/-- A step that returns leaves the station handle that `Op.sta_after` names. -/
theorem op_run_sta_after (op : Op) (w w1 : World) (h : op.run w = .ok () w1) :
    w1.st.sta_netif = op.sta_after w.st.sta_netif := by
  have hw : (op.run w).world = w1 := by rw [h]; rfl
  rw [← hw]
  cases op with
  | init sdk mode ssid password =>
    have keep : ¬ ((mode = WIFI_MODE_STA ∨ mode = WIFI_MODE_APSTA) ∧ ∃ s, ssid = some s ∧ s ≠ []) →
        (wifi_init_simple sdk mode ssid password w).world.st.sta_netif = w.st.sta_netif := by
      intro hc
      exact wifi_init_simple_pres frame_SameSta sdk mode ssid password
        (fun _ s h1 h2 h3 => absurd ⟨h3, s, h1, h2⟩ hc) (fun _ _ _ _ _ => rfl) w
    cases ssid with
    | none => exact keep (fun hc => by obtain ⟨_, s, hs, _⟩ := hc; cases hs)
    | some l =>
      cases l with
      | nil => exact keep (fun hc => by obtain ⟨_, s, hs, hne⟩ := hc; cases hs; exact hne rfl)
      | cons b bs =>
        by_cases hm : mode = WIFI_MODE_STA ∨ mode = WIFI_MODE_APSTA
        · simp only [Op.sta_after, hm, if_true]
          rw [hw]
          exact wifi_init_simple_sets_sta sdk mode (b :: bs) password (List.cons_ne_nil _ _) hm
            w () w1 h
        · simp only [Op.sta_after, hm, if_false]
          exact keep (fun hc => hm hc.1)
  | start_scan sdk cb => exact wifi_start_scan_pres frame_SameSta sdk cb (fun _ => rfl) w
  | connect sdk => exact wifi_connect_pres frame_SameSta sdk w
  | disconnect sdk => exact wifi_disconnect_pres frame_SameSta sdk (fun _ => rfl) w
  | event sdk b i d => exact wifi_event_handler_pres frame_SameSta sdk b i d (fun _ _ => rfl) w
  | scan_event sdk b i => exact wifi_scan_event_handler_pres frame_SameSta sdk b i w

/-- A session that returns leaves the station handle obtained by folding
`Op.sta_after` over its steps. -/
theorem run_ops_sta_after (ops : List Op) : ∀ (w w1 : World), run_ops ops w = .ok () w1 →
    w1.st.sta_netif = ops.foldl Op.sta_after w.st.sta_netif := by
  induction ops with
  | nil =>
    intro w w1 h
    simp only [run_ops, pure, M.pure, Res.ok.injEq, true_and] at h
    subst h
    rfl
  | cons op ops ih =>
    intro w w1 h
    simp only [run_ops] at h
    obtain ⟨_, w2, h1, h2⟩ := bind_eq_ok h
    rw [ih w2 w1 h2, op_run_sta_after op w w2 h1]
    rfl

/-- Steps that are not initialize calls keep the handle. -/
theorem foldl_sta_after_no_init (ops : List Op) (hno : ∀ op ∈ ops, op.isInit = false) :
    ∀ h : Ptr, ops.foldl Op.sta_after h = h := by
  induction ops with
  | nil => intro h; rfl
  | cons op ops ih =>
    intro h
    have h1 : op.sta_after h = h := by
      have := hno op (List.mem_cons_self _ _)
      cases op <;> first | rfl | (simp [Op.isInit] at this)
    rw [List.foldl_cons, h1]
    exact ih (fun x hx => hno x (List.mem_cons_of_mem _ hx)) h

/-- The connected flag after `wifi_event_handler`, however the run ends: cleared
by the station-disconnected event, set by the IP-acquired event with a payload,
as it was for every other event. -/
theorem wifi_event_handler_flag (sdk : Sdk) (s : State) (event_base : esp_event_base_t)
    (event_id : event_id_t) (event_data : Option Nat) :
    (wifi_event_handler sdk event_base event_id event_data ⟨s, []⟩).world.st.connected
      = (if event_base = WIFI_EVENT ∧ event_id = WIFI_EVENT_STA_DISCONNECTED then false
         else if event_base = IP_EVENT ∧ event_id = IP_EVENT_STA_GOT_IP
            ∧ event_data.isSome = true then true
         else s.connected) := by
  by_cases hb : event_base = WIFI_EVENT
  · subst hb
    by_cases hd : event_id = WIFI_EVENT_STA_DISCONNECTED
    · subst hd
      rw [if_pos ⟨rfl, rfl⟩]
      rfl
    · rw [if_neg (fun h => hd h.2), if_neg (fun h => by cases h.1)]
      unfold wifi_event_handler
      rw [if_pos rfl]
      split_ifs <;> rfl
  · rw [if_neg (fun h => hb h.1)]
    unfold wifi_event_handler
    rw [if_neg hb]
    by_cases hi : event_base = IP_EVENT ∧ event_id = IP_EVENT_STA_GOT_IP
    · rw [if_pos hi]
      cases event_data with
      | none => rw [if_neg (fun h => by cases h.2.2)]; rfl
      | some ip => rw [if_pos ⟨hi.1, hi.2, rfl⟩]; rfl
    · rw [if_neg hi, if_neg (fun h => hi ⟨h.1, h.2.1⟩)]
      rfl

/-! ## What the table printer does for every input -/

theorem padLeft_length (width : Nat) (text : List Char) (h : text.length ≤ width) :
    (padLeft width text).length = width := by
  simp only [padLeft, List.length_append, List.length_replicate]
  omega

set_option maxRecDepth 100000 in
theorem fmt_d_uint8_length : ∀ n : Fin 256, (fmt_d (n.val : Int)).length ≤ 3 := by
  decide

set_option maxRecDepth 100000 in
theorem fmt_d_int8_length : ∀ n : Fin 256, (fmt_d ((n.val : Int) - 128)).length ≤ 4 := by
  decide

/-- With an ssid of at most 32 bytes, an `int8_t` rssi and a `uint8_t` channel,
a data row is three fields of 32, 4 and 7 characters, each followed by
`" | "`, then the authentication mode and a newline; so its separators stand
at offsets 33, 40 and 50. -/
theorem format_row_layout (ap : wifi_ap_record_t) (hs : ap.ssid.length ≤ 32)
    (hr : -128 ≤ ap.rssi ∧ ap.rssi ≤ 127) (hp : ap.primary ≤ 255) :
    ∃ f1 f2 f3 : List Char,
      format_row ap = f1 ++ " | ".toList ++ f2 ++ " | ".toList ++ f3 ++ " | ".toList ++
        (auth_mode_str ap.authmode).toList ++ "\n".toList ∧
      f1.length = 32 ∧ f2.length = 4 ∧ f3.length = 7 := by
  refine ⟨padLeft 32 ap.ssid, padLeft 4 (fmt_d ap.rssi), padLeft 7 (fmt_d ap.primary), rfl,
    padLeft_length _ _ hs, padLeft_length _ _ ?_, padLeft_length _ _ ?_⟩
  · have h := fmt_d_int8_length ⟨(ap.rssi + 128).toNat, by omega⟩
    have e : (((ap.rssi + 128).toNat : Nat) : Int) - 128 = ap.rssi := by omega
    simp only [e] at h
    exact h
  · exact Nat.le_trans (fmt_d_uint8_length ⟨ap.primary, by omega⟩) (by decide)

theorem print_rows_eq (aps : List wifi_ap_record_t) (todo : Nat) :
    ∀ (i : Nat) (w : World), i + todo = aps.length →
      print_rows aps i todo w
        = .ok () ⟨w.st, w.trace ++ (aps.drop i).map fun ap => Effect.printf (format_row ap)⟩ := by
  induction todo with
  | zero =>
    intro i w h
    have hd : aps.drop i = [] := List.drop_eq_nil_of_le (by omega)
    simp [print_rows, hd, pure, M.pure]
  | succ n ih =>
    intro i w h
    have hi : i < aps.length := by omega
    have hd : aps.drop i = aps[i] :: aps.drop (i + 1) := List.drop_eq_getElem_cons hi
    have hg : aps.get? i = some aps[i] := List.get?_eq_get hi
    simp only [print_rows, hg, bind, M.bind, emit]
    rw [ih (i + 1) _ (by omega), hd, List.map_cons, List.append_assoc]
    rfl

/-- For a non-null array of `N ≥ 1` records and `count = N`, the printer
returns with the state unchanged, having printed the count line, the frame,
the header, the rule, one row per record in input order, and the frame. -/
theorem wifi_print_scan_results_rows (aps : List wifi_ap_record_t) (s : State)
    (h : aps ≠ []) :
    wifi_print_scan_results (some aps) aps.length ⟨s, []⟩
      = .ok () ⟨s,
          [.printf ("\nFound ".toList ++ fmt_d aps.length ++ " networks:\n".toList),
           .printf table_frame, .printf table_header, .printf table_rule] ++
          aps.map (fun ap => Effect.printf (format_row ap)) ++ [.printf table_frame]⟩ := by
  have hl : aps.length ≠ 0 := fun h0 => h (List.length_eq_zero.mp h0)
  simp only [wifi_print_scan_results, hl, if_false, bind, M.bind, emit, pure, M.pure]
  rw [print_rows_eq aps aps.length 0 _ (by omega)]
  simp

/-- For a null array or `count = 0` the printer prints `No networks found`
and nothing else. -/
theorem wifi_print_scan_results_empty (aps : Option (List wifi_ap_record_t)) (count : Nat)
    (s : State) (h : aps = none ∨ count = 0) :
    wifi_print_scan_results aps count ⟨s, []⟩
      = .ok () ⟨s, [.printf "No networks found\n".toList]⟩ := by
  cases aps with
  | none => simp [wifi_print_scan_results, emit]
  | some l =>
    rcases h with h | h
    · cases h
    · simp [wifi_print_scan_results, emit, h, bind, M.bind, pure, M.pure]

/-! ## What the scan-done relay does when the scan found networks -/

/-- With a stored callback, a positive access-point count, a successful
allocation and a successful record retrieval, the relay calls the callback
once with `WIFI_SCAN_DONE`, the records, and the count written back by
`esp_wifi_scan_get_ap_records`, then frees the buffer. -/
theorem wifi_scan_event_handler_found (sdk : Sdk) (s : State) (hcb : s.user_scan_cb ≠ NULL)
    (hn : 0 < sdk.scan_ap_num) (hm : sdk.malloc_ok = true)
    (hok : sdk.scan_get_ap_records = ESP_OK) :
    wifi_scan_event_handler sdk WIFI_EVENT WIFI_EVENT_SCAN_DONE ⟨s, []⟩
      = .ok () ⟨s,
          [.esp_wifi_scan_get_ap_num, .malloc sdk.scan_ap_num,
           .esp_wifi_scan_get_ap_records sdk.scan_ap_num,
           .callback s.user_scan_cb WIFI_SCAN_DONE (some sdk.scan_records)
             sdk.scan_records_number,
           .free]⟩ := by
  simp [wifi_scan_event_handler, ESP_ERROR_CHECK, logMsg, emit, getState, bind, M.bind, pure,
    M.pure, hn, hm, hok, hcb]

/-- With a stored callback and a positive access-point count, a failed
allocation makes the relay call the callback once with `WIFI_SCAN_ERROR`, a
null record pointer and count 0. -/
theorem wifi_scan_event_handler_no_memory (sdk : Sdk) (s : State)
    (hcb : s.user_scan_cb ≠ NULL) (hn : 0 < sdk.scan_ap_num) (hm : sdk.malloc_ok = false) :
    wifi_scan_event_handler sdk WIFI_EVENT WIFI_EVENT_SCAN_DONE ⟨s, []⟩
      = .ok () ⟨s,
          [.esp_wifi_scan_get_ap_num, .malloc sdk.scan_ap_num,
           .log .ESP_LOGE "Failed to allocate memory for AP records",
           .callback s.user_scan_cb WIFI_SCAN_ERROR none 0]⟩ := by
  simp [wifi_scan_event_handler, ESP_ERROR_CHECK, logMsg, emit, getState, bind, M.bind, pure,
    M.pure, hn, hm, hcb]

/-! ## What `wifi_init_simple` hands to `esp_wifi_set_config` -/

section emits
variable {E : Effect → Prop} {α β : Type}

theorem emits_nothing {m : M α} (h : ∀ w, (m w).world.trace = w.trace) : Emits E m :=
  fun w => ⟨[], by rw [h w, List.append_nil], fun _ he => absurd he (List.not_mem_nil _)⟩

theorem emits_pure (a : α) : Emits E (pure a : M α) := emits_nothing fun _ => rfl

theorem emits_fault : Emits E (fault : M α) := emits_nothing fun _ => rfl

theorem emits_check (e : esp_err_t) : Emits E (ESP_ERROR_CHECK e) := by
  apply emits_nothing
  intro w
  unfold ESP_ERROR_CHECK
  split_ifs <;> rfl

theorem emits_modifyState (f : State → State) : Emits E (modifyState f) :=
  emits_nothing fun _ => rfl

theorem emits_emit {e : Effect} (h : E e) : Emits E (emit e) :=
  fun w => ⟨[e], rfl, fun x hx => by rw [List.mem_singleton.mp hx]; exact h⟩

theorem emits_logMsg (l : LogLevel) (s : String) (h : E (.log l s)) : Emits E (logMsg l s) :=
  emits_emit h

theorem emits_bind {m : M α} {f : α → M β} (hm : Emits E m) (hf : ∀ a, Emits E (f a)) :
    Emits E (m >>= f) := by
  intro w
  obtain ⟨es, h1, h2⟩ := hm w
  show ∃ es, (M.bind m f w).world.trace = w.trace ++ es ∧ ∀ e ∈ es, E e
  unfold M.bind
  cases h : m w with
  | ok a w1 =>
    rw [h] at h1
    obtain ⟨es1, h3, h4⟩ := hf a w1
    refine ⟨es ++ es1, ?_, ?_⟩
    · show (f a w1).world.trace = w.trace ++ (es ++ es1)
      rw [h3, ← List.append_assoc]
      congr 1
    · intro e he
      rcases List.mem_append.mp he with he | he
      · exact h2 e he
      · exact h4 e he
  | abort w1 => rw [h] at h1; exact ⟨es, h1, h2⟩
  | fault w1 => rw [h] at h1; exact ⟨es, h1, h2⟩

theorem emits_ite (c : Prop) [Decidable c] {a b : M α} (ha : Emits E a) (hb : Emits E b) :
    Emits E (if c then a else b) := by
  split_ifs
  · exact ha
  · exact hb

end emits

theorem ap_configs_forall (P : wifi_ap_config_t → Prop) (es : List Effect)
    (h : ∀ e ∈ es, ApConfigIs P e) : ∀ c ∈ ap_configs es, P c := by
  induction es with
  | nil => intro c hc; simp [ap_configs] at hc
  | cons e es ih =>
    have ih1 := ih fun x hx => h x (List.mem_cons_of_mem _ hx)
    intro c hc
    unfold ap_configs at hc
    split at hc
    · cases hc
    · rename_i c0 es0 heq
      cases heq
      rcases List.mem_cons.mp hc with hc | hc
      · subst hc
        exact h _ (List.mem_cons_self _ _) c rfl
      · exact ih1 c hc
    · rename_i e0 es0 _ heq
      cases heq
      exact ih1 c hc

/-- Every access-point configuration that `wifi_init_simple` hands to
`esp_wifi_set_config` has `ssid_len = strlen(ssid) mod 256` and the 32-byte
ssid field filled by `strncpy`. -/
theorem wifi_init_simple_ap_config (sdk : Sdk) (mode : wifi_mode_t) (ssid : CString)
    (password : Option CString) (s : State) :
    ∀ c ∈ ap_configs (wifi_init_simple sdk mode (some ssid) password ⟨s, []⟩).world.trace,
      c.ssid_len = strlen ssid % 2 ^ 8 ∧ c.ssid = strncpy 32 ssid := by
  have key : Emits
      (ApConfigIs fun c => c.ssid_len = strlen ssid % 2 ^ 8 ∧ c.ssid = strncpy 32 ssid)
      (wifi_init_simple sdk mode (some ssid) password) := by
    cases password <;>
    simp only [wifi_init_simple] <;>
    repeat' with_reducible first
      | exact emits_pure _
      | exact emits_fault
      | exact emits_check _
      | exact emits_modifyState _
      | exact emits_emit (fun c h => by cases h; exact ⟨rfl, rfl⟩)
      | exact emits_emit (fun c h => by cases h)
      | exact emits_logMsg _ _ (fun c h => by cases h)
      | apply emits_bind
      | apply emits_ite
      | intro _
  obtain ⟨es, h1, h2⟩ := key ⟨s, []⟩
  rw [h1]
  exact ap_configs_forall _ _ h2

theorem field_strlen_strncpy (n : Nat) (ssid : CString) (h0 : ∀ b ∈ ssid, b ≠ 0) :
    field_strlen (strncpy n ssid) = min (strlen ssid) n := by
  unfold field_strlen strncpy strlen
  have h1 : ∀ b ∈ ssid.take n, (decide (b ≠ 0)) = true := fun b hb => by
    simpa using h0 b (List.mem_of_mem_take hb)
  rw [List.takeWhile_append_of_pos h1]
  have h2 : (List.replicate (n - ssid.length) 0).takeWhile (fun b => decide (b ≠ 0)) = [] := by
    cases (n - ssid.length) with
    | zero => rfl
    | succ k => simp [List.replicate_succ, List.takeWhile_cons]
  rw [h2, List.append_nil, List.length_take]
  exact Nat.min_comm _ _

/-- For an ssid of at most 32 bytes the `ssid_len` value the source computes
is the number of ssid bytes in the 32-byte field; for a longer one of fewer
than 256 bytes it is larger. -/
theorem ssid_len_vs_field (ssid : CString) (h0 : ∀ b ∈ ssid, b ≠ 0) :
    (strlen ssid ≤ 32 → strlen ssid % 2 ^ 8 = field_strlen (strncpy 32 ssid)) ∧
    (32 < strlen ssid → strlen ssid < 256 →
      field_strlen (strncpy 32 ssid) < strlen ssid % 2 ^ 8) := by
  rw [field_strlen_strncpy 32 ssid h0]
  constructor
  · intro h
    rw [Nat.min_eq_left h]
    omega
  · intro h1 h2
    rw [Nat.min_eq_right (Nat.le_of_lt h1)]
    omega

/-! ## The claims -/

/-- C1. For every session state, `wifi_event_handler` on the IP-acquired event
returns with `wifi_is_connected` reading true; on the station-disconnected
event it returns with `wifi_is_connected` reading false and its only SDK call
is one `esp_wifi_connect`. -/
theorem C1_event_relay (sdk : Sdk) (s : State) (ip : Nat) (event_data : Option Nat) :
    (∃ w, wifi_event_handler sdk IP_EVENT IP_EVENT_STA_GOT_IP (some ip) ⟨s, []⟩ = .ok () w ∧
        wifi_is_connected w = .ok true w) ∧
    (∃ w, wifi_event_handler sdk WIFI_EVENT WIFI_EVENT_STA_DISCONNECTED event_data ⟨s, []⟩
          = .ok () w ∧
        wifi_is_connected w = .ok false w ∧
        w.trace.filter Effect.isSdkCall = [Effect.esp_wifi_connect]) := by
  refine ⟨⟨⟨{ s with connected := true }, [.log .ESP_LOGI "Got IP: %d.%d.%d.%d"]⟩, ?_, ?_⟩,
    ⟨⟨{ s with connected := false },
      [.log .ESP_LOGI "Disconnected from AP", .esp_wifi_connect]⟩, ?_, ?_, ?_⟩⟩
  · simp [wifi_event_handler, IP_EVENT_STA_GOT_IP, logMsg, emit, modifyState, bind, M.bind]
  · simp [wifi_is_connected, getState, bind, M.bind, pure, M.pure]
  · simp [wifi_event_handler, WIFI_EVENT_STA_DISCONNECTED, WIFI_EVENT_STA_START,
      WIFI_EVENT_STA_CONNECTED, logMsg, emit, modifyState, bind, M.bind, pure, M.pure]
  · simp [wifi_is_connected, getState, bind, M.bind, pure, M.pure]
  · simp [Effect.isSdkCall]

/-- C2. `wifi_init_simple` with a null or zero-length ssid, for every mode,
password and session state, returns with the state unchanged and a trace that
holds the error log line and nothing else, so no SDK call. -/
theorem C2_empty_ssid (sdk : Sdk) (mode : wifi_mode_t) (ssid password : Option CString)
    (s : State) (h : ssid = none ∨ ssid = some []) :
    wifi_init_simple sdk mode ssid password ⟨s, []⟩
      = .ok () ⟨s, [.log .ESP_LOGE "SSID cannot be empty"]⟩ := by
  rcases h with h | h <;> subst h
  · simp [wifi_init_simple, logMsg, emit]
  · simp [wifi_init_simple, logMsg, emit, strlen, bind, M.bind, pure, M.pure]

/-- C2 at a zero-length ssid in dual mode, from the initial state. -/
theorem C2_empty_ssid_witness :
    wifi_init_simple sdk_all_ok WIFI_MODE_APSTA (some []) (some [112, 119]) ⟨State.initial, []⟩
      = .ok () ⟨State.initial, [.log .ESP_LOGE "SSID cannot be empty"]⟩ :=
  C2_empty_ssid sdk_all_ok WIFI_MODE_APSTA (some []) (some [112, 119]) State.initial
    (Or.inr rfl)

/-- C3. In the state left by a `wifi_init_simple` call in `WIFI_MODE_AP` that
started from the initial state and returned (for every ssid, so for every
non-empty one), `wifi_connect` and `wifi_disconnect` return with the state
unchanged and a trace that holds one error log line and no SDK call. -/
theorem C3_ap_only_connect_disconnect (sdk sdk1 : Sdk) (ssid password : Option CString)
    (w : World)
    (hinit : wifi_init_simple sdk WIFI_MODE_AP ssid password ⟨State.initial, []⟩ = .ok () w) :
    wifi_connect sdk1 ⟨w.st, []⟩
      = .ok () ⟨w.st, [.log .ESP_LOGE "Not in STA mode - cannot connect"]⟩ ∧
    wifi_disconnect sdk1 ⟨w.st, []⟩
      = .ok () ⟨w.st, [.log .ESP_LOGE "Not in STA mode - cannot disconnect"]⟩ := by
  have hp := wifi_init_simple_pres frame_SameSta sdk WIFI_MODE_AP ssid password
    (fun _ _ _ _ hm => by
      rcases hm with hm | hm
      · exact absurd hm (by decide)
      · exact absurd hm (by decide))
    (fun _ _ _ _ _ => rfl) ⟨State.initial, []⟩
  rw [hinit] at hp
  have hsta : w.st.sta_netif = NULL := hp
  constructor
  · simp [wifi_connect, getState, logMsg, emit, bind, M.bind, pure, M.pure, hsta]
  · simp [wifi_disconnect, getState, logMsg, emit, bind, M.bind, pure, M.pure, hsta]

/-- C3 after an access-point initialize with ssid `my` and every SDK call
succeeding. -/
theorem C3_ap_only_connect_disconnect_witness :
    wifi_connect sdk_all_ok
        ⟨(wifi_init_simple sdk_all_ok WIFI_MODE_AP (some [109, 121]) (some [])
          ⟨State.initial, []⟩).world.st, []⟩
      = .ok () ⟨(wifi_init_simple sdk_all_ok WIFI_MODE_AP (some [109, 121]) (some [])
          ⟨State.initial, []⟩).world.st, [.log .ESP_LOGE "Not in STA mode - cannot connect"]⟩ ∧
    wifi_disconnect sdk_all_ok
        ⟨(wifi_init_simple sdk_all_ok WIFI_MODE_AP (some [109, 121]) (some [])
          ⟨State.initial, []⟩).world.st, []⟩
      = .ok () ⟨(wifi_init_simple sdk_all_ok WIFI_MODE_AP (some [109, 121]) (some [])
          ⟨State.initial, []⟩).world.st,
            [.log .ESP_LOGE "Not in STA mode - cannot disconnect"]⟩ :=
  C3_ap_only_connect_disconnect sdk_all_ok sdk_all_ok (some [109, 121]) (some []) _ rfl

/-- C4. After `wifi_start_scan` stored a non-null callback, the scan-done
relay with an access-point count of 0 returns having called the stored callback
once, with count 0 and a null record pointer, and having neither allocated nor
freed a buffer (the event it passes is `WIFI_SCAN_ERROR`). -/
theorem C4_scan_zero_networks (sdk0 sdk : Sdk) (s : State) (cb : wifi_scan_cb_t)
    (hcb : cb ≠ NULL) (hn : sdk.scan_ap_num = 0) :
    wifi_scan_event_handler sdk WIFI_EVENT WIFI_EVENT_SCAN_DONE
        ⟨(wifi_start_scan sdk0 cb ⟨s, []⟩).world.st, []⟩
      = .ok () ⟨{ s with user_scan_cb := cb },
          [.esp_wifi_scan_get_ap_num, .callback cb WIFI_SCAN_ERROR none 0]⟩ := by
  have hst : (wifi_start_scan sdk0 cb ⟨s, []⟩).world.st = { s with user_scan_cb := cb } := by
    by_cases h0 : sdk0.esp_wifi_scan_start = ESP_OK <;>
    simp [wifi_start_scan, logMsg, emit, modifyState, getState, bind, M.bind, pure, M.pure,
      Res.world, h0, hcb]
  rw [hst]
  simp [wifi_scan_event_handler, logMsg, emit, getState, bind, M.bind, pure, M.pure, hn, hcb]

/-- C4 with callback 7 stored from the initial state. -/
theorem C4_scan_zero_networks_witness :
    wifi_scan_event_handler sdk_all_ok WIFI_EVENT WIFI_EVENT_SCAN_DONE
        ⟨(wifi_start_scan sdk_all_ok 7 ⟨State.initial, []⟩).world.st, []⟩
      = .ok () ⟨{ State.initial with user_scan_cb := 7 },
          [.esp_wifi_scan_get_ap_num, .callback 7 WIFI_SCAN_ERROR none 0]⟩ :=
  C4_scan_zero_networks sdk_all_ok sdk_all_ok State.initial 7 (by decide) rfl

/-- C5. For a non-null callback, `wifi_start_scan` returns with the callback
stored; when the SDK's scan start fails the trace after the scan start holds
the error log and one call of the callback with `WIFI_SCAN_ERROR`, a null
record pointer and count 0, and when it succeeds the trace holds the scan start
alone. -/
theorem C5_scan_launch (sdk : Sdk) (s : State) (cb : wifi_scan_cb_t) (hcb : cb ≠ NULL) :
    wifi_start_scan sdk cb ⟨s, []⟩
      = .ok () ⟨{ s with user_scan_cb := cb },
          if sdk.esp_wifi_scan_start = ESP_OK then
            [.esp_wifi_scan_start ⟨NULL, NULL, 0, true⟩ true]
          else
            [.esp_wifi_scan_start ⟨NULL, NULL, 0, true⟩ true, .log .ESP_LOGE "Scan failed: %s",
              .callback cb WIFI_SCAN_ERROR none 0]⟩ := by
  by_cases h : sdk.esp_wifi_scan_start = ESP_OK
  · simp [wifi_start_scan, logMsg, emit, modifyState, getState, bind, M.bind, pure, M.pure, h]
  · simp [wifi_start_scan, logMsg, emit, modifyState, getState, bind, M.bind, pure, M.pure, h,
      hcb]

/-- C5 with callback 7 and a scan start that returns the error code `0x3001`. -/
theorem C5_scan_launch_witness :
    wifi_start_scan { sdk_all_ok with esp_wifi_scan_start := 0x3001 } 7 ⟨State.initial, []⟩
      = .ok () ⟨{ State.initial with user_scan_cb := 7 },
          [.esp_wifi_scan_start ⟨NULL, NULL, 0, true⟩ true, .log .ESP_LOGE "Scan failed: %s",
            .callback 7 WIFI_SCAN_ERROR none 0]⟩ :=
  (C5_scan_launch { sdk_all_ok with esp_wifi_scan_start := 0x3001 } State.initial 7
    (by decide)).trans (by rfl)

/-- C6, evaluated on one record (`RITHY`, -50 dBm, channel 6, WPA2): the table
is printed with one data row, whose separators stand at offsets 33, 40 and 50
like those of the header line, while the separators of the dashed rule line
stand at 32, 39 and 49. -/
theorem C6_rule_line_off_by_one :
    printed (wifi_print_scan_results
        (some [⟨"RITHY".toList, -50, 6, WIFI_AUTH_WPA2_PSK⟩]) 1 ⟨State.initial, []⟩).world.trace
      = ["\nFound 1 networks:\n".toList,
         table_frame,
         "               SSID              | RSSI | Channel | Auth Mode \n".toList,
         "--------------------------------|------|---------|----------\n".toList,
         "                           RITHY |  -50 |       6 | WPA2\n".toList,
         table_frame] ∧
    bar_offsets (format_row ⟨"RITHY".toList, -50, 6, WIFI_AUTH_WPA2_PSK⟩) = [33, 40, 50] ∧
    bar_offsets table_header = [33, 40, 50] ∧
    bar_offsets table_rule = [32, 39, 49] := by
  refine ⟨by rfl, by decide, by decide, by decide⟩

/-- C7 as stated fails: `wifi_init_simple` in `WIFI_MODE_STA` with a non-empty
ssid, when the SDK cannot create the station interface, returns early and the
state it leaves has a null station handle although the mode includes station. -/
theorem C7_counterexample :
    run_ops [.init { sdk_all_ok with esp_netif_create_default_wifi_sta := NULL } WIFI_MODE_STA
        (some [82]) (some [])] ⟨State.initial, []⟩
      = .ok () ⟨State.initial,
          [.nvs_flash_init, .esp_netif_init, .esp_event_loop_create_default,
           .esp_netif_create_default_wifi_sta,
           .log .ESP_LOGE "Failed to create STA interface"]⟩ ∧
    ¬ (State.initial.sta_netif ≠ NULL ↔
        (WIFI_MODE_STA = WIFI_MODE_STA ∨ WIFI_MODE_STA = WIFI_MODE_APSTA)) := by
  refine ⟨by rfl, ?_⟩
  intro h
  exact h.mpr (Or.inl rfl) rfl

/-- C7, amended. In a state reached from the initial state by any sequence of
`wifi_init_simple`, `wifi_start_scan`, `wifi_connect`, `wifi_disconnect` and
relay events, the station handle is what `esp_netif_create_default_wifi_sta`
returned in the latest initialize call with a non-empty ssid and a mode that
includes station, and null when there was none: no other step changes it. So
it is non-null only if such a call created the interface; and in a state
reached by one initialize call followed by any steps that are not initialize
calls, it is non-null exactly when the mode includes station, the ssid is
non-empty and the SDK created the interface. -/
theorem C7_station_handle (ops rest : List Op) (w w1 : World) (sdk : Sdk) (mode : wifi_mode_t)
    (ssid password : Option CString)
    (hreach : run_ops ops ⟨State.initial, []⟩ = .ok () w)
    (hone : run_ops (.init sdk mode ssid password :: rest) ⟨State.initial, []⟩ = .ok () w1)
    (hrest : ∀ op ∈ rest, op.isInit = false) :
    w.st.sta_netif = ops.foldl Op.sta_after NULL ∧
    (w.st.sta_netif ≠ NULL → ∃ op ∈ ops, op.createsSta) ∧
    (w1.st.sta_netif ≠ NULL ↔
      ((mode = WIFI_MODE_STA ∨ mode = WIFI_MODE_APSTA) ∧ (∃ s, ssid = some s ∧ s ≠ []) ∧
        sdk.esp_netif_create_default_wifi_sta ≠ NULL)) := by
  refine ⟨run_ops_sta_after ops _ _ hreach, ?_, ?_⟩
  · intro hn
    rcases run_ops_sta ops _ _ hreach hn with h | h
    · exact absurd rfl h
    · exact h
  · have h1 := run_ops_sta_after _ _ _ hone
    rw [List.foldl_cons, foldl_sta_after_no_init rest hrest] at h1
    rw [h1]
    show Op.sta_after NULL (.init sdk mode ssid password) ≠ NULL ↔ _
    cases ssid with
    | none =>
      simp only [Op.sta_after]
      constructor
      · intro h; exact absurd rfl h
      · rintro ⟨_, ⟨s, hs, _⟩, _⟩; cases hs
    | some l =>
      cases l with
      | nil =>
        simp only [Op.sta_after]
        constructor
        · intro h; exact absurd rfl h
        · rintro ⟨_, ⟨s, hs, hne⟩, _⟩; cases hs; exact absurd rfl hne
      | cons b bs =>
        by_cases hm : mode = WIFI_MODE_STA ∨ mode = WIFI_MODE_APSTA
        · simp only [Op.sta_after, hm, if_true]
          constructor
          · intro h; exact ⟨trivial, ⟨_, rfl, List.cons_ne_nil _ _⟩, h⟩
          · rintro ⟨_, _, h⟩; exact h
        · simp only [Op.sta_after, hm, if_false]
          constructor
          · intro h; exact absurd rfl h
          · rintro ⟨h, _, _⟩; exact absurd h (by simp)

/-- C7, amended, at a station-mode initialize with ssid `R`, every SDK call
succeeding, followed by `wifi_connect` and then `wifi_disconnect`. -/
theorem C7_station_handle_witness :
    (run_ops [.init sdk_all_ok WIFI_MODE_STA (some [82]) (some []), .connect sdk_all_ok]
        ⟨State.initial, []⟩).world.st.sta_netif
      = [Op.init sdk_all_ok WIFI_MODE_STA (some [82]) (some []), Op.connect sdk_all_ok].foldl
          Op.sta_after NULL ∧
    ((run_ops [.init sdk_all_ok WIFI_MODE_STA (some [82]) (some []), .connect sdk_all_ok]
        ⟨State.initial, []⟩).world.st.sta_netif ≠ NULL →
      ∃ op ∈ [Op.init sdk_all_ok WIFI_MODE_STA (some [82]) (some []), Op.connect sdk_all_ok],
        op.createsSta) ∧
    ((run_ops [.init sdk_all_ok WIFI_MODE_STA (some [82]) (some []), .connect sdk_all_ok,
        .disconnect sdk_all_ok] ⟨State.initial, []⟩).world.st.sta_netif ≠ NULL ↔
      ((WIFI_MODE_STA = WIFI_MODE_STA ∨ WIFI_MODE_STA = WIFI_MODE_APSTA) ∧
        (∃ s, some [82] = some s ∧ s ≠ []) ∧
        sdk_all_ok.esp_netif_create_default_wifi_sta ≠ NULL)) :=
  C7_station_handle [.init sdk_all_ok WIFI_MODE_STA (some [82]) (some []), .connect sdk_all_ok]
    [.connect sdk_all_ok, .disconnect sdk_all_ok] _ _
    sdk_all_ok WIFI_MODE_STA (some [82]) (some []) rfl rfl (by decide)

/-- C8 as stated fails: from the initial state, a station-mode initialize
followed by the IP-acquired event leaves `wifi_is_connected` reading true, and
`wifi_disconnect` then makes it read false. -/
theorem C8_counterexample :
    (run_ops [.init sdk_all_ok WIFI_MODE_STA (some [82]) (some []),
        .event sdk_all_ok IP_EVENT IP_EVENT_STA_GOT_IP (some 1)] ⟨State.initial, []⟩).world.st
      = { user_scan_cb := NULL, connected := true, sta_netif := 1, ap_netif := NULL } ∧
    wifi_is_connected
        ⟨{ user_scan_cb := NULL, connected := true, sta_netif := 1, ap_netif := NULL }, []⟩
      = .ok true
        ⟨{ user_scan_cb := NULL, connected := true, sta_netif := 1, ap_netif := NULL }, []⟩ ∧
    wifi_disconnect sdk_all_ok
        ⟨{ user_scan_cb := NULL, connected := true, sta_netif := 1, ap_netif := NULL }, []⟩
      = .ok ()
        ⟨{ user_scan_cb := NULL, connected := false, sta_netif := 1, ap_netif := NULL },
          [.esp_wifi_disconnect]⟩ ∧
    wifi_is_connected
        ⟨{ user_scan_cb := NULL, connected := false, sta_netif := 1, ap_netif := NULL },
          [.esp_wifi_disconnect]⟩
      = .ok false
        ⟨{ user_scan_cb := NULL, connected := false, sta_netif := 1, ap_netif := NULL },
          [.esp_wifi_disconnect]⟩ := by
  refine ⟨by rfl, by rfl, by rfl, by rfl⟩

/-- C8, amended. For every session state, `wifi_init_simple`,
`wifi_start_scan`, `wifi_print_scan_results`, `wifi_connect`,
`wifi_is_connected` and the scan-done relay end (however they end) with the
connected flag as it was; `wifi_disconnect` ends with the flag cleared when the
station handle is non-null and `esp_wifi_disconnect` returns `ESP_OK`, and with
the flag as it was otherwise; `wifi_event_handler` ends with the flag cleared on
the station-disconnected event, set on the IP-acquired event, and as it was on
every other event. -/
theorem C8_connected_flag_writers (sdk : Sdk) (s : State) (mode : wifi_mode_t)
    (ssid password : Option CString) (cb : wifi_scan_cb_t)
    (aps : Option (List wifi_ap_record_t)) (count : Nat) (event_base : esp_event_base_t)
    (event_id : event_id_t) (event_data : Option Nat) :
    (wifi_init_simple sdk mode ssid password ⟨s, []⟩).world.st.connected = s.connected ∧
    (wifi_start_scan sdk cb ⟨s, []⟩).world.st.connected = s.connected ∧
    (wifi_print_scan_results aps count ⟨s, []⟩).world.st.connected = s.connected ∧
    (wifi_connect sdk ⟨s, []⟩).world.st.connected = s.connected ∧
    (wifi_is_connected ⟨s, []⟩).world.st.connected = s.connected ∧
    (wifi_scan_event_handler sdk event_base event_id ⟨s, []⟩).world.st.connected
      = s.connected ∧
    (wifi_disconnect sdk ⟨s, []⟩).world.st.connected
      = (if s.sta_netif ≠ NULL ∧ sdk.esp_wifi_disconnect = ESP_OK then false
         else s.connected) ∧
    (wifi_event_handler sdk event_base event_id event_data ⟨s, []⟩).world.st.connected
      = (if event_base = WIFI_EVENT ∧ event_id = WIFI_EVENT_STA_DISCONNECTED then false
         else if event_base = IP_EVENT ∧ event_id = IP_EVENT_STA_GOT_IP
            ∧ event_data.isSome = true then true
         else s.connected) := by
  refine ⟨?_, ?_, ?_, ?_, ?_, ?_, ?_, wifi_event_handler_flag sdk s event_base event_id event_data⟩
  · exact wifi_init_simple_pres frame_SameConnected sdk mode ssid password
      (fun _ _ _ _ _ => rfl) (fun _ _ _ _ _ => rfl) ⟨s, []⟩
  · exact wifi_start_scan_pres frame_SameConnected sdk cb (fun _ => rfl) ⟨s, []⟩
  · exact wifi_print_scan_results_pres frame_SameConnected aps count ⟨s, []⟩
  · exact wifi_connect_pres frame_SameConnected sdk ⟨s, []⟩
  · rfl
  · exact wifi_scan_event_handler_pres frame_SameConnected sdk event_base event_id ⟨s, []⟩
  · by_cases h1 : s.sta_netif = NULL <;> by_cases h2 : sdk.esp_wifi_disconnect = ESP_OK <;>
    simp [wifi_disconnect, getState, logMsg, emit, modifyState, ESP_ERROR_CHECK, abort, bind,
      M.bind, pure, M.pure, Res.world, h1, h2]

/-- C9, evaluated with a stored callback and a scan that found no access
point, every SDK call succeeding and no allocation attempted: the relay calls
the callback once with `WIFI_SCAN_ERROR`, a null record pointer and count 0;
the callback of `example/main.c` then prints `Scan failed!`, where
`WIFI_SCAN_DONE` with the same arguments would print `No networks found`. -/
theorem C9_zero_networks_reported_as_error :
    wifi_scan_event_handler sdk_all_ok WIFI_EVENT WIFI_EVENT_SCAN_DONE
        ⟨{ State.initial with user_scan_cb := 7 }, []⟩
      = .ok () ⟨{ State.initial with user_scan_cb := 7 },
          [.esp_wifi_scan_get_ap_num, .callback 7 WIFI_SCAN_ERROR none 0]⟩ ∧
    printed (my_scan_callback WIFI_SCAN_ERROR none 0 ⟨State.initial, []⟩).world.trace
      = ["Scan failed!\n".toList] ∧
    printed (my_scan_callback WIFI_SCAN_DONE none 0 ⟨State.initial, []⟩).world.trace
      = ["\nScan completed. Found 0 networks:\n".toList, "No networks found\n".toList] := by
  refine ⟨by rfl, by rfl, by rfl⟩

/-- C10, evaluated on a 33-byte ssid in `WIFI_MODE_AP` with every SDK call
succeeding: the one access-point configuration handed to
`esp_wifi_set_config` has `ssid_len = 33` while its 32-byte ssid field holds 32
ssid bytes. -/
theorem C10_ssid_len_exceeds_field :
    (ap_configs (wifi_init_simple sdk_all_ok WIFI_MODE_AP (some (List.replicate 33 97))
        (some []) ⟨State.initial, []⟩).world.trace).map
        (fun c => (c.ssid_len, field_strlen c.ssid, c.ssid.length))
      = [(33, 32, 32)] ∧
    min (strlen (List.replicate 33 97)) 32 = 32 := by
  refine ⟨by rfl, by decide⟩

end WifiSimple
